import Mathlib

/-!
Shallow embedding of the ticket-lifecycle and round-robin-assignment logic of
the two-application helpdesk system (client app `Client_App/app.py`,
`Client_App/models.py`; support dashboard `Support Dashboard/support_app.py`).

Conventions of the embedding:
* `datetime` values become `Nat` timestamps (`Time`); `datetime.utcnow()` is an
  explicit `now : Time` argument threaded into each handler.
* Nullable SQL columns become `Option`; Python string-truthiness tests are
  modelled exactly where the source relies on them.
* A database transaction (mutations followed by `db.session.commit()`) becomes
  a single pure function from the old state to the new state; the handler's
  `flash` calls and outbound knowledge-base pushes are returned as data.
* SQLAlchemy `ORDER BY last_assigned ASC NULLS FIRST ... .all()[0]` is modelled
  as a stable sort (`List.insertionSort`) by the nulls-first order on
  `last_assigned`, followed by `head?`.
-/

abbrev Time := Nat

/-- Model of the `support_staff` row (`SupportStaff` in `support_app.py`):
id, username, role (`"agent"` or `"manager"`), availability flag and the
nullable `last_assigned` timestamp. -/
structure SupportStaff where
  id : Nat
  username : String
  role : String
  is_available : Bool
  last_assigned : Option Time
deriving DecidableEq

/-- Model of the shared `tickets` row (`Ticket` in `Client_App/models.py`,
mirrored by `SupportTicket` in `support_app.py`). -/
structure Ticket where
  ticket_id : String
  user_id : Nat
  title : String
  description : String
  error_code : Option String
  priority : String
  status : String
  assigned_to : Option Nat
  assigned_at : Option Time
  resolved_at : Option Time
  solution : Option String
  updated_at : Time
deriving DecidableEq

/-- Model of a `ticket_messages` row (`TicketMessage` in
`Client_App/models.py`). -/
structure TicketMessage where
  sender_id : Option Nat
  sender_type : String
  message : String
  is_internal : Bool
  created_at : Time
deriving DecidableEq

/-- The `ORDER BY last_assigned ASC NULLS FIRST` key order used by
`get_next_available_agent`: `NULL` sorts before every timestamp. -/
def nullsFirstLE : Option Time → Option Time → Bool
  | none, _ => true
  | some _, none => false
  | some a, some b => decide (a ≤ b)

/-- The row order induced on support staff by `nullsFirstLE` on
`last_assigned`. -/
def rrLE (a b : SupportStaff) : Prop :=
  nullsFirstLE a.last_assigned b.last_assigned = true

instance : DecidableRel rrLE :=
  fun a b =>
    inferInstanceAs (Decidable (nullsFirstLE a.last_assigned b.last_assigned = true))

/-- The filter of `SupportStaff.query.filter_by(role='agent',
is_available=True)`. -/
def is_available_agent (s : SupportStaff) : Bool :=
  s.role == "agent" && s.is_available

/-- `get_next_available_agent` (`support_app.py:140-149`): filter staff to
available agents, order by `last_assigned` ascending with nulls first, and
return the first row if any. -/
def get_next_available_agent (staff : List SupportStaff) : Option SupportStaff :=
  (List.insertionSort rrLE (staff.filter is_available_agent)).head?

theorem nullsFirstLE_refl (o : Option Time) : nullsFirstLE o o = true := by
  cases o <;> simp [nullsFirstLE]

theorem nullsFirstLE_total (o p : Option Time) :
    nullsFirstLE o p = true ∨ nullsFirstLE p o = true := by
  cases o with
  | none => left; rfl
  | some a =>
    cases p with
    | none => right; rfl
    | some b =>
      simp only [nullsFirstLE, decide_eq_true_eq]
      exact Nat.le_total a b

theorem nullsFirstLE_trans {o p q : Option Time}
    (h1 : nullsFirstLE o p = true) (h2 : nullsFirstLE p q = true) :
    nullsFirstLE o q = true := by
  cases o with
  | none => rfl
  | some a =>
    cases p with
    | none => exact absurd h1 (by simp [nullsFirstLE])
    | some b =>
      cases q with
      | none => exact absurd h2 (by simp [nullsFirstLE])
      | some c =>
        simp only [nullsFirstLE, decide_eq_true_eq] at *
        exact Nat.le_trans h1 h2

instance : IsTotal SupportStaff rrLE where
  total a b := nullsFirstLE_total a.last_assigned b.last_assigned

instance : IsTrans SupportStaff rrLE where
  trans _ _ _ hab hbc := nullsFirstLE_trans hab hbc

/-- Update of a single staff row's `last_assigned` column (the effect of
`agent.last_assigned = datetime.utcnow()` followed by the commit): the row
with the given primary key gets `last_assigned = now`, all others are kept. -/
def bumpLastAssigned (staff : List SupportStaff) (agent_id : Nat) (now : Time) :
    List SupportStaff :=
  staff.map fun s => if s.id = agent_id then { s with last_assigned := some now } else s

/-- Result of `assign_ticket_round_robin`: the committed ticket row, the
committed staff table, and the agent the function returned (`none` when no
agent was available). -/
structure AssignRRResult where
  ticket : Ticket
  staff : List SupportStaff
  agent : Option SupportStaff
deriving DecidableEq

/-- `assign_ticket_round_robin` (`support_app.py:151-164`): pick the next
agent; if one exists, set `assigned_to`, `assigned_at = now`,
`status = 'in_progress'` (unconditionally), bump the agent's `last_assigned`
and commit everything at once; otherwise leave all state unchanged. -/
def assign_ticket_round_robin (staff : List SupportStaff) (t : Ticket) (now : Time) :
    AssignRRResult :=
  match get_next_available_agent staff with
  | some agent =>
    { ticket := { t with assigned_to := some agent.id
                         assigned_at := some now
                         status := "in_progress" }
      staff := bumpLastAssigned staff agent.id now
      agent := some agent }
  | none => { ticket := t, staff := staff, agent := none }

/-- Python truthiness of the nullable integer column `ticket.assigned_to` as
used in `if not ticket.assigned_to:` — `None` and `0` are falsy. -/
def pythonTruthyId : Option Nat → Bool
  | none => false
  | some n => n != 0

/-- The `SupportStaff.query.get(agent_id)` primary-key lookup. -/
def find_staff (staff : List SupportStaff) (sid : Nat) : Option SupportStaff :=
  staff.find? fun s => s.id == sid

/-- Result of the manual `assign_ticket` route: committed ticket row,
committed staff table, and the flash messages shown to the requester. -/
structure ManualAssignResult where
  ticket : Ticket
  staff : List SupportStaff
  flashes : List String
deriving DecidableEq

/-- Manual `assign_ticket` route (`support_app.py:262-291`). A manager
assigns to the agent named in the form (if that staff row exists),
unconditionally; any other staff member self-assigns, but only when
`not ticket.assigned_to` holds; in every other case nothing is written. -/
def assign_ticket (staff : List SupportStaff) (t : Ticket)
    (requester : SupportStaff) (agent_id : Option Nat) (now : Time) :
    ManualAssignResult :=
  if requester.role = "manager" then
    match agent_id with
    | some aid =>
      match find_staff staff aid with
      | some agent =>
        { ticket := { t with assigned_to := some agent.id
                             assigned_at := some now
                             status := "in_progress" }
          staff := bumpLastAssigned staff agent.id now
          flashes := ["Ticket assigned to " ++ agent.username] }
      | none => { ticket := t, staff := staff, flashes := [] }
    | none => { ticket := t, staff := staff, flashes := [] }
  else
    if pythonTruthyId t.assigned_to then
      { ticket := t, staff := staff, flashes := [] }
    else
      { ticket := { t with assigned_to := some requester.id
                           assigned_at := some now
                           status := "in_progress" }
        staff := bumpLastAssigned staff requester.id now
        flashes := ["Ticket assigned to you"] }

/-- The five defined ticket statuses (`support_app.py:301`). -/
def validStatuses : List String :=
  ["open", "in_progress", "pending_user", "resolved", "closed"]

/-- `update_knowledge_base` (`support_app.py:321-335`): the outbound
`(error_code, solution)` push, skipped when either value is falsy (the
network call itself is fire-and-forget and modelled as the returned pair). -/
def update_knowledge_base (error_code : Option String) (solution : String) :
    Option (String × String) :=
  match error_code with
  | none => none
  | some ec => if ec = "" then none else if solution = "" then none else some (ec, solution)

/-- Result of the `update_ticket_status` route: committed ticket row, flash
messages shown to the caller, and the knowledge-base push attempted (if any). -/
structure StatusUpdateResult where
  ticket : Ticket
  flashes : List String
  kb_push : Option (String × String)
deriving DecidableEq

/-- `update_ticket_status` route (`support_app.py:293-319`). A status inside
the five-value list is written together with `updated_at = now`; when the new
status is `resolved` and the submitted solution text is non-empty (Python
truthiness), `solution` and `resolved_at` are also written and a
knowledge-base push is attempted. A status outside the list leaves every
field untouched and produces no flash at all (the route just redirects). -/
def update_ticket_status (t : Ticket) (new_status solution : String) (now : Time) :
    StatusUpdateResult :=
  if new_status ∈ validStatuses then
    if new_status = "resolved" ∧ solution ≠ "" then
      { ticket := { t with status := new_status
                           updated_at := now
                           solution := some solution
                           resolved_at := some now }
        flashes := ["Ticket status updated to " ++ new_status]
        kb_push := update_knowledge_base t.error_code solution }
    else
      { ticket := { t with status := new_status, updated_at := now }
        flashes := ["Ticket status updated to " ++ new_status]
        kb_push := none }
  else
    { ticket := t, flashes := [], kb_push := none }

/-- The `{status, updated_at}` payload of the client-to-support
`/api/tickets/<id>/user_update` call (`app.py:890-908`); `status` is read
with `data.get('status', ticket.status)`, so it may be absent. -/
structure UserUpdatePayload where
  status : Option String
  updated_at : Time
deriving DecidableEq

/-- `handle_user_update` (`support_app.py:373-387`), found-ticket path: the
local status is overwritten by the payload status when present, and
`updated_at` is stamped with the receiver's own clock (`datetime.utcnow()`);
the payload's `updated_at` is never read. -/
def handle_user_update (t : Ticket) (p : UserUpdatePayload) (now : Time) : Ticket :=
  { t with status := p.status.getD t.status, updated_at := now }

/-- `Ticket.can_be_updated_by_user` (`models.py:128-130`). -/
def can_be_updated_by_user (t : Ticket) : Bool :=
  decide (t.status ∈ (["open", "in_progress", "pending_user"] : List String))

/-- Validation of `TicketMessageForm` (`forms.py:178-183`): `DataRequired`
plus a 5-1000 character length bound. -/
def ticket_message_form_valid (text : String) : Bool :=
  !(text == "") && decide (5 ≤ text.length) && decide (text.length ≤ 1000)

/-- Result of the `add_ticket_message` route: committed ticket row, the
ticket's message list, and the flash messages shown to the user. -/
structure AddMessageResult where
  ticket : Ticket
  messages : List TicketMessage
  flashes : List String
deriving DecidableEq

/-- `add_ticket_message` route (`app.py:848-888`): a ticket failing
`can_be_updated_by_user` is rejected before any mutation; otherwise a valid
form appends a user message and — inside the same commit — flips a
`resolved` status back to `in_progress` (a branch that is unreachable,
because `can_be_updated_by_user` already excludes `resolved`). -/
def add_ticket_message (t : Ticket) (msgs : List TicketMessage)
    (sender_id : Nat) (text : String) (now : Time) : AddMessageResult :=
  if !can_be_updated_by_user t then
    { ticket := t, messages := msgs
      flashes := ["This ticket cannot be updated anymore."] }
  else if ticket_message_form_valid text then
    { ticket := if t.status = "resolved" then { t with status := "in_progress" } else t
      messages := msgs ++ [{ sender_id := some sender_id
                             sender_type := "user"
                             message := text
                             is_internal := false
                             created_at := now }]
      flashes := ["Your message has been added to the ticket."] }
  else
    { ticket := t, messages := msgs, flashes := [] }

/-- Python `s[:n]` on strings. -/
def pyTake (s : String) (n : Nat) : String :=
  ⟨s.data.take n⟩

/-- Python `s.upper()` on strings. -/
def pyUpper (s : String) : String :=
  ⟨s.data.map Char.toUpper⟩

/-- `Ticket.generate_ticket_id` (`models.py:100-105`): the prefix `DUMP-`,
the current date formatted `YYYYMMDD`, and the first eight characters of a
fresh UUID4 string, upper-cased. Date and UUID string are the two
environment inputs of the generator. -/
def generate_ticket_id (date uuid : String) : String :=
  "DUMP-" ++ date ++ "-" ++ pyUpper (pyTake uuid 8)

/-- The ticket-id choice made by `Ticket.__init__` (`models.py:95-98`) for a
fresh ticket: `generate_ticket_id` is called once. The `existing` argument
is the set of ticket ids already in the store; the source never consults it
(there is no collision check and no retry), which the definition mirrors by
ignoring the argument. -/
def new_ticket_id (existing : List String) (date uuid : String) : String :=
  generate_ticket_id date uuid

/-- Python `round(x, 1)` idealised over the rationals: the nearest multiple
of one-tenth (the source computes in binary floating point; exact rational
rounding is the idealisation of that arithmetic). -/
def round1 (x : ℚ) : ℚ :=
  ((round (x * 10) : ℤ) : ℚ) / 10

/-- `KnowledgeBaseSolution.get_success_rate` (`models.py:260-265`): `0` when
there is no feedback at all, otherwise the success fraction as a percentage
rounded to one decimal place. -/
def get_success_rate (success_count failure_count : Nat) : ℚ :=
  let total := success_count + failure_count
  if total = 0 then 0
  else round1 (((success_count : ℚ) / (total : ℚ)) * 100)

/-! Concrete fixtures used by counterexamples and witnesses. -/

/-- Agent that has never been assigned (the `A` of the spec's round-robin
example). -/
def agentA : SupportStaff :=
  { id := 1, username := "A", role := "agent", is_available := true, last_assigned := none }

/-- Agent last assigned at time 1 (the spec's `B`). -/
def agentB : SupportStaff :=
  { id := 2, username := "B", role := "agent", is_available := true, last_assigned := some 1 }

/-- Agent last assigned at time 2 (the spec's `C`). -/
def agentC : SupportStaff :=
  { id := 3, username := "C", role := "agent", is_available := true, last_assigned := some 2 }

/-- A manager, never a round-robin candidate. -/
def managerM : SupportStaff :=
  { id := 4, username := "M", role := "manager", is_available := true, last_assigned := none }

/-- An unavailable agent, never a candidate despite a null `last_assigned`. -/
def agentOff : SupportStaff :=
  { id := 5, username := "Off", role := "agent", is_available := false, last_assigned := none }

/-- The staff table of the spec's round-robin example, with the
least-recently-assigned agent listed last. -/
def staffExample : List SupportStaff :=
  [managerM, agentOff, agentC, agentB, agentA]

/-- A ticket sitting in status `open`, unassigned. -/
def openTicket : Ticket :=
  { ticket_id := "DUMP-20250101-AAAA0001", user_id := 7, title := "Blue screen on boot"
    description := "Machine crashes with a stop code during startup sequence."
    error_code := some "0x0000001E", priority := "high", status := "open"
    assigned_to := none, assigned_at := none, resolved_at := none
    solution := none, updated_at := 0 }

/-- A ticket already resolved (with solution and resolution time set). -/
def resolvedTicket : Ticket :=
  { openTicket with status := "resolved", solution := some "Updated drivers"
                    resolved_at := some 10, updated_at := 10 }

/-- A ticket in status `in_progress`, assigned to agent 1. -/
def inProgressTicket : Ticket :=
  { openTicket with status := "in_progress", assigned_to := some 1
                    assigned_at := some 3, updated_at := 3 }

/-- C1: the round-robin candidate returned by `get_next_available_agent` is
always an available staff member of role `agent` whose `last_assigned` is
minimal in the nulls-first order over all available agents (so a null
`last_assigned` beats every timestamp, and managers and unavailable staff
are never chosen); when no available agent exists, no agent is selected. -/
theorem c1_round_robin_selection (staff : List SupportStaff) :
    (∀ a, get_next_available_agent staff = some a →
      a ∈ staff ∧ a.role = "agent" ∧ a.is_available = true ∧
      ∀ b ∈ staff, b.role = "agent" → b.is_available = true →
        nullsFirstLE a.last_assigned b.last_assigned = true) ∧
    (get_next_available_agent staff = none →
      ∀ b ∈ staff, b.role = "agent" → b.is_available = true → False) := by
  have hperm := List.perm_insertionSort rrLE (staff.filter is_available_agent)
  have hsort := List.sorted_insertionSort rrLE (staff.filter is_available_agent)
  constructor
  · intro a ha
    unfold get_next_available_agent at ha
    cases hs : List.insertionSort rrLE (staff.filter is_available_agent) with
    | nil => rw [hs] at ha; exact absurd ha (by simp)
    | cons x tl =>
      rw [hs] at ha
      simp only [List.head?_cons, Option.some.injEq] at ha
      subst ha
      have hmem_sort : x ∈ List.insertionSort rrLE (staff.filter is_available_agent) := by
        rw [hs]; exact List.mem_cons_self x tl
      have hmem_filter : x ∈ staff.filter is_available_agent := hperm.mem_iff.mp hmem_sort
      obtain ⟨hmem_staff, hpred⟩ := List.mem_filter.mp hmem_filter
      simp only [is_available_agent, Bool.and_eq_true, beq_iff_eq] at hpred
      refine ⟨hmem_staff, hpred.1, hpred.2, ?_⟩
      intro b hb hbrole hbavail
      have hb_filter : b ∈ staff.filter is_available_agent :=
        List.mem_filter.mpr ⟨hb, by simp [is_available_agent, hbrole, hbavail]⟩
      have hb_sort := hperm.mem_iff.mpr hb_filter
      rw [hs] at hb_sort
      rcases List.mem_cons.mp hb_sort with h | h
      · rw [h]; exact nullsFirstLE_refl _
      · rw [hs] at hsort
        exact List.rel_of_sorted_cons hsort b h
  · intro hnone b hb hbrole hbavail
    unfold get_next_available_agent at hnone
    have hsnil : List.insertionSort rrLE (staff.filter is_available_agent) = [] := by
      cases hs : List.insertionSort rrLE (staff.filter is_available_agent) with
      | nil => rfl
      | cons x tl => rw [hs] at hnone; exact absurd hnone (by simp)
    have hfil : staff.filter is_available_agent = [] := by
      rw [hsnil] at hperm
      exact (hperm.symm).eq_nil
    have hnotpred := List.filter_eq_nil_iff.mp hfil b hb
    exact hnotpred (by simp [is_available_agent, hbrole, hbavail])

/-- Witness for C1 on the spec's own example staff table: agent `A` (null
`last_assigned`) is selected, is an available agent, and precedes both `B`
and `C` in the nulls-first order. -/
theorem c1_round_robin_selection_witness :
    agentA ∈ staffExample ∧ agentA.role = "agent" ∧ agentA.is_available = true ∧
    nullsFirstLE agentA.last_assigned agentB.last_assigned = true ∧
    nullsFirstLE agentA.last_assigned agentC.last_assigned = true := by
  obtain ⟨h1, h2, h3, h4⟩ :=
    (c1_round_robin_selection staffExample).1 agentA (by decide)
  exact ⟨h1, h2, h3, h4 agentB (by decide) (by decide) (by decide),
         h4 agentC (by decide) (by decide) (by decide)⟩

/-- Counterexample to C2 as stated: on round-robin assignment the code sets
`status = 'in_progress'` unconditionally, so a ticket whose status was
already `resolved` is downgraded back to `in_progress`. -/
theorem c2_assignment_downgrades_resolved :
    resolvedTicket.status = "resolved" ∧
    (assign_ticket_round_robin staffExample resolvedTicket 20).ticket.status =
      "in_progress" := by
  decide

/-- C2 (amended): when round-robin selects an agent, the single transaction
sets the ticket's `assigned_to` to that agent, `assigned_at` to the current
time, `status` to `in_progress` unconditionally (regardless of the previous
status, so an advanced status is downgraded), and bumps the selected agent's
`last_assigned` to the current time while leaving every other staff row
unchanged. -/
theorem c2_round_robin_assignment_writes (staff : List SupportStaff) (t : Ticket)
    (now : Time) (agent : SupportStaff)
    (h : get_next_available_agent staff = some agent) :
    (assign_ticket_round_robin staff t now).agent = some agent ∧
    (assign_ticket_round_robin staff t now).ticket.assigned_to = some agent.id ∧
    (assign_ticket_round_robin staff t now).ticket.assigned_at = some now ∧
    (assign_ticket_round_robin staff t now).ticket.status = "in_progress" ∧
    (∀ s ∈ staff, s.id = agent.id →
      { s with last_assigned := some now } ∈ (assign_ticket_round_robin staff t now).staff) ∧
    (∀ s ∈ staff, s.id ≠ agent.id → s ∈ (assign_ticket_round_robin staff t now).staff) := by
  unfold assign_ticket_round_robin
  rw [h]
  refine ⟨rfl, rfl, rfl, rfl, ?_, ?_⟩
  · intro s hs hid
    show ({ s with last_assigned := some now } : SupportStaff) ∈
      bumpLastAssigned staff agent.id now
    unfold bumpLastAssigned
    exact List.mem_map.mpr ⟨s, hs, by simp [hid]⟩
  · intro s hs hid
    show s ∈ bumpLastAssigned staff agent.id now
    unfold bumpLastAssigned
    exact List.mem_map.mpr ⟨s, hs, by simp [hid]⟩

/-- Witness for the amended C2 at the example staff table: agent `A` is
selected, the four writes are visible, and an untouched row survives. -/
theorem c2_round_robin_assignment_writes_witness :
    (assign_ticket_round_robin staffExample openTicket 20).agent = some agentA ∧
    (assign_ticket_round_robin staffExample openTicket 20).ticket.assigned_to =
      some agentA.id ∧
    (assign_ticket_round_robin staffExample openTicket 20).ticket.assigned_at = some 20 ∧
    (assign_ticket_round_robin staffExample openTicket 20).ticket.status = "in_progress" ∧
    { agentA with last_assigned := some 20 } ∈
      (assign_ticket_round_robin staffExample openTicket 20).staff ∧
    agentB ∈ (assign_ticket_round_robin staffExample openTicket 20).staff := by
  obtain ⟨h1, h2, h3, h4, h5, h6⟩ :=
    c2_round_robin_assignment_writes staffExample openTicket 20 agentA (by decide)
  exact ⟨h1, h2, h3, h4, h5 agentA (by decide) rfl, h6 agentB (by decide) (by decide)⟩

/-- Counterexample to C3 as stated: a status update to `resolved` with an
empty solution is not rejected — the ticket is mutated (status flips to
`resolved`) while `solution` and `resolved_at` stay unset, breaking the
`resolved implies solution` invariant. -/
theorem c3_empty_solution_not_rejected :
    (update_ticket_status openTicket "resolved" "" 5).ticket.status = "resolved" ∧
    (update_ticket_status openTicket "resolved" "" 5).ticket.solution = none ∧
    (update_ticket_status openTicket "resolved" "" 5).ticket.resolved_at = none ∧
    (update_ticket_status openTicket "resolved" "" 5).ticket ≠ openTicket := by
  decide

/-- C3 (amended): updating a ticket to `resolved` with a non-empty solution
sets `status`, `solution` and `resolved_at` together; with an empty solution
the update is still accepted — `status` becomes `resolved` while `solution`
and `resolved_at` are left as they were, so `resolved` does not imply a
non-null solution. -/
theorem c3_resolution_solution_handling (t : Ticket) (solution : String) (now : Time) :
    (solution ≠ "" →
      (update_ticket_status t "resolved" solution now).ticket.status = "resolved" ∧
      (update_ticket_status t "resolved" solution now).ticket.solution = some solution ∧
      (update_ticket_status t "resolved" solution now).ticket.resolved_at = some now) ∧
    (solution = "" →
      (update_ticket_status t "resolved" solution now).ticket.status = "resolved" ∧
      (update_ticket_status t "resolved" solution now).ticket.solution = t.solution ∧
      (update_ticket_status t "resolved" solution now).ticket.resolved_at =
        t.resolved_at) := by
  constructor
  · intro hs
    unfold update_ticket_status
    rw [if_pos (by decide), if_pos ⟨rfl, hs⟩]
    exact ⟨rfl, rfl, rfl⟩
  · intro hs
    subst hs
    unfold update_ticket_status
    rw [if_pos (by decide), if_neg (by simp)]
    exact ⟨rfl, rfl, rfl⟩

/-- Witness for the amended C3: a non-empty solution sets all three fields;
an empty solution still flips the status while leaving the other two
fields alone. -/
theorem c3_resolution_solution_handling_witness :
    (update_ticket_status openTicket "resolved" "Updated drivers" 5).ticket.status =
      "resolved" ∧
    (update_ticket_status openTicket "resolved" "Updated drivers" 5).ticket.solution =
      some "Updated drivers" ∧
    (update_ticket_status openTicket "resolved" "Updated drivers" 5).ticket.resolved_at =
      some 5 ∧
    (update_ticket_status openTicket "resolved" "" 5).ticket.status = "resolved" ∧
    (update_ticket_status openTicket "resolved" "" 5).ticket.solution =
      openTicket.solution ∧
    (update_ticket_status openTicket "resolved" "" 5).ticket.resolved_at =
      openTicket.resolved_at := by
  obtain ⟨h1, h2, h3⟩ :=
    (c3_resolution_solution_handling openTicket "Updated drivers" 5).1 (by decide)
  obtain ⟨h4, h5, h6⟩ := (c3_resolution_solution_handling openTicket "" 5).2 rfl
  exact ⟨h1, h2, h3, h4, h5, h6⟩

/-- C4: evaluation of `add_ticket_message` at the claim's scenario. A user
message posted to a `resolved` ticket is rejected by the
`can_be_updated_by_user` guard before the reopen branch can run (that branch
is unreachable), so the status stays `resolved` and no message is stored;
only the second half of the claim — a message on an `in_progress` ticket
leaves the status unchanged — holds. -/
theorem c4_resolved_ticket_message_rejected :
    (add_ticket_message resolvedTicket [] 7 "The problem happens again" 30).ticket.status =
      "resolved" ∧
    (add_ticket_message resolvedTicket [] 7 "The problem happens again" 30).messages =
      [] ∧
    (add_ticket_message resolvedTicket [] 7 "The problem happens again" 30).flashes =
      ["This ticket cannot be updated anymore."] ∧
    (add_ticket_message inProgressTicket [] 7 "The problem happens again" 30).ticket.status =
      "in_progress" := by
  decide

/-- C5: manual assignment semantics of the `assign_ticket` route. A
non-manager self-assigns exactly when the ticket is unassigned (first-claim),
setting assignee, assignment time and `in_progress`; when `assigned_to`
already holds a valid (non-zero) staff id the request changes nothing; a
manager assigns any requested existing agent unconditionally. -/
theorem c5_manual_assignment (staff : List SupportStaff) (t : Ticket)
    (requester : SupportStaff) (agent_id : Option Nat) (now : Time) :
    (requester.role ≠ "manager" → t.assigned_to = none →
      (assign_ticket staff t requester agent_id now).ticket.assigned_to =
        some requester.id ∧
      (assign_ticket staff t requester agent_id now).ticket.assigned_at = some now ∧
      (assign_ticket staff t requester agent_id now).ticket.status = "in_progress") ∧
    (requester.role ≠ "manager" → ∀ j, t.assigned_to = some j → j ≠ 0 →
      assign_ticket staff t requester agent_id now =
        { ticket := t, staff := staff, flashes := [] }) ∧
    (requester.role = "manager" → ∀ aid agent, agent_id = some aid →
      find_staff staff aid = some agent →
      (assign_ticket staff t requester agent_id now).ticket.assigned_to =
        some agent.id ∧
      (assign_ticket staff t requester agent_id now).ticket.assigned_at = some now ∧
      (assign_ticket staff t requester agent_id now).ticket.status = "in_progress") := by
  refine ⟨?_, ?_, ?_⟩
  · intro hrole hnone
    unfold assign_ticket
    rw [if_neg hrole, hnone]
    exact ⟨rfl, rfl, rfl⟩
  · intro hrole j hj hj0
    simp only [assign_ticket, if_neg hrole, hj, pythonTruthyId]
    simp [hj0]
  · intro hrole aid agent haid hfind
    simp [assign_ticket, if_pos hrole, haid, hfind]

/-- Witness for C5: agent `B` self-claims the unassigned open ticket; agent
`B` cannot take the already-assigned in-progress ticket; manager `M` assigns
the in-progress ticket to agent `C` regardless. -/
theorem c5_manual_assignment_witness :
    (assign_ticket staffExample openTicket agentB none 40).ticket.assigned_to =
      some agentB.id ∧
    (assign_ticket staffExample openTicket agentB none 40).ticket.assigned_at =
      some 40 ∧
    (assign_ticket staffExample openTicket agentB none 40).ticket.status =
      "in_progress" ∧
    assign_ticket staffExample inProgressTicket agentB none 40 =
      { ticket := inProgressTicket, staff := staffExample, flashes := [] } ∧
    (assign_ticket staffExample inProgressTicket managerM (some 3) 40).ticket.assigned_to =
      some agentC.id := by
  obtain ⟨h1, h2, h3⟩ :=
    (c5_manual_assignment staffExample openTicket agentB none 40).1 (by decide) rfl
  have h4 :=
    (c5_manual_assignment staffExample inProgressTicket agentB none 40).2.1
      (by decide) 1 rfl (by decide)
  have h5 :=
    ((c5_manual_assignment staffExample inProgressTicket managerM (some 3) 40).2.2
      rfl 3 agentC rfl (by decide)).1
  exact ⟨h1, h2, h3, h4, h5⟩

/-- The payload of the client's user-update notification used in the C6
counterexample. -/
def syncPayload : UserUpdatePayload :=
  { status := some "in_progress", updated_at := 100 }

/-- Counterexample to C6 as stated: applying the same `{status, updated_at}`
payload twice does not leave the ticket in the same state as applying it
once — the receiver stamps `updated_at` with its own clock on every
application and ignores the payload's `updated_at` entirely, so there is no
last-write-wins on the payload timestamp. -/
theorem c6_sync_not_idempotent :
    handle_user_update (handle_user_update openTicket syncPayload 1) syncPayload 2 ≠
      handle_user_update openTicket syncPayload 1 ∧
    (handle_user_update openTicket syncPayload 1).updated_at ≠
      syncPayload.updated_at := by
  decide

/-- C6 (amended): applying the same payload twice is idempotent up to the
`updated_at` stamp — the second application changes nothing except
overwriting `updated_at` with its own application time (in particular the
status agrees), and a second application at the same local time is a no-op. -/
theorem c6_sync_idempotent_up_to_timestamp (t : Ticket) (p : UserUpdatePayload)
    (now1 now2 : Time) :
    handle_user_update (handle_user_update t p now1) p now2 =
      { handle_user_update t p now1 with updated_at := now2 } ∧
    handle_user_update (handle_user_update t p now1) p now1 =
      handle_user_update t p now1 := by
  cases hp : p.status with
  | none => simp [handle_user_update, hp]
  | some s => simp [handle_user_update, hp]

/-- Counterexample to C7 as stated: an out-of-range status value is not
reported to the caller — the route produces no message at all (while a valid
value does produce one), it only leaves the ticket unchanged. -/
theorem c7_invalid_status_silently_ignored :
    (update_ticket_status openTicket "bogus" "" 5).ticket = openTicket ∧
    (update_ticket_status openTicket "bogus" "" 5).flashes = [] ∧
    (update_ticket_status openTicket "in_progress" "" 5).flashes ≠ [] := by
  decide

/-- C7 (amended): a `new_status` outside the five defined statuses is
silently ignored — nothing is persisted, no knowledge-base push is attempted
and no message is reported to the caller (the route merely redirects); each
of the five defined values is accepted, written to the ticket and confirmed
with a flash message. -/
theorem c7_status_validation (t : Ticket) (new_status solution : String) (now : Time) :
    (new_status ∉ validStatuses →
      update_ticket_status t new_status solution now =
        { ticket := t, flashes := [], kb_push := none }) ∧
    (new_status ∈ validStatuses →
      (update_ticket_status t new_status solution now).ticket.status = new_status ∧
      (update_ticket_status t new_status solution now).ticket.updated_at = now ∧
      (update_ticket_status t new_status solution now).flashes =
        ["Ticket status updated to " ++ new_status]) := by
  constructor
  · intro h
    unfold update_ticket_status
    rw [if_neg h]
  · intro h
    unfold update_ticket_status
    rw [if_pos h]
    by_cases hc : new_status = "resolved" ∧ solution ≠ ""
    · rw [if_pos hc]; exact ⟨rfl, rfl, rfl⟩
    · rw [if_neg hc]; exact ⟨rfl, rfl, rfl⟩

/-- Witness for the amended C7: the out-of-range value `"reopened"` persists
nothing and reports nothing, while the defined value `"pending_user"` is
accepted and confirmed. -/
theorem c7_status_validation_witness :
    update_ticket_status openTicket "reopened" "" 9 =
      { ticket := openTicket, flashes := [], kb_push := none } ∧
    (update_ticket_status openTicket "pending_user" "" 9).ticket.status =
      "pending_user" ∧
    (update_ticket_status openTicket "pending_user" "" 9).ticket.updated_at = 9 ∧
    (update_ticket_status openTicket "pending_user" "" 9).flashes =
      ["Ticket status updated to " ++ "pending_user"] := by
  have h1 := (c7_status_validation openTicket "reopened" "" 9).1 (by decide)
  obtain ⟨h2, h3, h4⟩ := (c7_status_validation openTicket "pending_user" "" 9).2 (by decide)
  exact ⟨h1, h2, h3, h4⟩

/-- Counterexample to C8 as stated: the generator never looks at the
existing ticket ids, so when the freshly generated id is already present in
the store it is returned anyway — no collision is detected and no retry
happens, and two creations from the same date and UUID prefix yield the
same id. -/
theorem c8_no_collision_check :
    new_ticket_id ["DUMP-20251012-ABCD1234"] "20251012"
        "abcd1234-0000-4000-8000-000000000000" ∈
      (["DUMP-20251012-ABCD1234"] : List String) ∧
    new_ticket_id [] "20251012" "abcd1234-0000-4000-8000-000000000000" =
      new_ticket_id ["DUMP-20251012-ABCD1234"] "20251012"
        "abcd1234-0000-4000-8000-000000000000" := by
  decide

/-- C8 (amended): every generated ticket id is exactly the prefix `DUMP-`,
the date, a dash and the first eight characters of the UUID string
upper-cased (so it has length `date.length + 14` whenever the UUID string
has at least eight characters); the generation is independent of the set of
existing ticket ids — no collision check or retry exists, and distinctness
of two creations rests solely on the UUID randomness and the database's
unique constraint. -/
theorem c8_ticket_id_format (existing existing2 : List String) (date uuid : String) :
    new_ticket_id existing date uuid =
      "DUMP-" ++ date ++ "-" ++ pyUpper (pyTake uuid 8) ∧
    new_ticket_id existing date uuid = new_ticket_id existing2 date uuid ∧
    (8 ≤ uuid.length → (new_ticket_id existing date uuid).length = date.length + 14) := by
  refine ⟨rfl, rfl, ?_⟩
  intro h
  show ("DUMP-" ++ date ++ "-" ++ pyUpper (pyTake uuid 8)).length = date.length + 14
  rw [String.length_append, String.length_append, String.length_append]
  have hsuffix : (pyUpper (pyTake uuid 8)).length = 8 := by
    show ((uuid.data.take 8).map Char.toUpper).length = 8
    rw [List.length_map, List.length_take]
    have huuid : uuid.length = uuid.data.length := rfl
    omega
  rw [hsuffix]
  have hpre : ("DUMP-" : String).length = 5 := rfl
  have hdash : ("-" : String).length = 1 := rfl
  rw [hpre, hdash]
  omega

/-- Witness for the amended C8 at a concrete UUID4 string: the format, the
independence from the existing-id set, and the total length. -/
theorem c8_ticket_id_format_witness :
    new_ticket_id [] "20251012" "abcd1234-0000-4000-8000-000000000000" =
      "DUMP-" ++ "20251012" ++ "-" ++
        pyUpper (pyTake "abcd1234-0000-4000-8000-000000000000" 8) ∧
    new_ticket_id [] "20251012" "abcd1234-0000-4000-8000-000000000000" =
      new_ticket_id ["DUMP-20251012-ZZZZ9999"] "20251012"
        "abcd1234-0000-4000-8000-000000000000" ∧
    (new_ticket_id [] "20251012" "abcd1234-0000-4000-8000-000000000000").length =
      ("20251012" : String).length + 14 := by
  obtain ⟨h1, h2, h3⟩ :=
    c8_ticket_id_format [] ["DUMP-20251012-ZZZZ9999"] "20251012"
      "abcd1234-0000-4000-8000-000000000000"
  exact ⟨h1, h2, h3 (by decide)⟩

/-- A ticket in the terminal status `closed`, used by the C9 witness. -/
def closedTicket : Ticket :=
  { openTicket with status := "closed", updated_at := 12 }

/-- C9: a user message is accepted exactly on tickets whose status lies in
`{open, in_progress, pending_user}` — a valid form then appends the message
and leaves the ticket row unchanged — while on any other status (in
particular `resolved` and `closed`) the request is rejected with the ticket
row and message list untouched. -/
theorem c9_user_message_gate (t : Ticket) (msgs : List TicketMessage) (sid : Nat)
    (text : String) (now : Time) :
    (t.status ∉ (["open", "in_progress", "pending_user"] : List String) →
      add_ticket_message t msgs sid text now =
        { ticket := t, messages := msgs,
          flashes := ["This ticket cannot be updated anymore."] }) ∧
    (t.status ∈ (["open", "in_progress", "pending_user"] : List String) →
      ticket_message_form_valid text = true →
      (add_ticket_message t msgs sid text now).messages =
        msgs ++ [{ sender_id := some sid, sender_type := "user", message := text,
                   is_internal := false, created_at := now }] ∧
      (add_ticket_message t msgs sid text now).ticket = t) := by
  constructor
  · intro h
    have hcan : can_be_updated_by_user t = false := by
      simp [can_be_updated_by_user, h]
    simp [add_ticket_message, hcan]
  · intro hmem hvalid
    have hcan : can_be_updated_by_user t = true := by
      simp [can_be_updated_by_user, hmem]
    have hnres : ¬t.status = "resolved" := by
      intro he
      rw [he] at hmem
      exact absurd hmem (by decide)
    simp [add_ticket_message, hcan, hvalid, hnres]

/-- Witness for C9: a closed ticket rejects the message untouched; the open
ticket accepts it, appending exactly one user message. -/
theorem c9_user_message_gate_witness :
    add_ticket_message closedTicket [] 7 "Any further update please" 50 =
      { ticket := closedTicket, messages := [],
        flashes := ["This ticket cannot be updated anymore."] } ∧
    (add_ticket_message openTicket [] 7 "Any further update please" 50).messages =
      [] ++ [{ sender_id := some 7, sender_type := "user",
               message := "Any further update please", is_internal := false,
               created_at := 50 }] ∧
    (add_ticket_message openTicket [] 7 "Any further update please" 50).ticket =
      openTicket := by
  have h1 :=
    (c9_user_message_gate closedTicket [] 7 "Any further update please" 50).1 (by decide)
  obtain ⟨h2, h3⟩ :=
    (c9_user_message_gate openTicket [] 7 "Any further update please" 50).2
      (by decide) (by decide)
  exact ⟨h1, h2, h3⟩

/-- C10: `get_success_rate` never divides by zero — with no feedback at all
it returns `0`, and otherwise it returns the success fraction as a
percentage rounded to one decimal place (idealising Python's float
`round(x, 1)` as exact rational rounding), a value always between `0`
and `100`. -/
theorem c10_success_rate_safe (s f : Nat) :
    (s + f = 0 → get_success_rate s f = 0) ∧
    (s + f ≠ 0 →
      get_success_rate s f =
        ((round (((s : ℚ) / ((s : ℚ) + (f : ℚ))) * 100 * 10) : ℤ) : ℚ) / 10 ∧
      0 ≤ get_success_rate s f ∧ get_success_rate s f ≤ 100) := by
  constructor
  · intro h
    simp [get_success_rate, h]
  · intro h
    have hpos : 0 < s + f := Nat.pos_of_ne_zero h
    have hcast : ((s + f : Nat) : ℚ) = (s : ℚ) + (f : ℚ) := by push_cast; ring
    have htotpos : (0 : ℚ) < (s : ℚ) + (f : ℚ) := by
      rw [← hcast]
      exact_mod_cast hpos
    have heq : get_success_rate s f =
        ((round (((s : ℚ) / ((s : ℚ) + (f : ℚ))) * 100 * 10) : ℤ) : ℚ) / 10 := by
      simp only [get_success_rate, round1]
      rw [if_neg h, hcast]
    have hq0 : (0 : ℚ) ≤ (s : ℚ) / ((s : ℚ) + (f : ℚ)) * 100 * 10 := by positivity
    have hq1 : (s : ℚ) / ((s : ℚ) + (f : ℚ)) ≤ 1 := by
      rw [div_le_one htotpos]
      have hf0 : (0 : ℚ) ≤ (f : ℚ) := by positivity
      linarith
    have hq1000 : (s : ℚ) / ((s : ℚ) + (f : ℚ)) * 100 * 10 ≤ 1000 := by linarith
    have hr0 : (0 : ℤ) ≤ round ((s : ℚ) / ((s : ℚ) + (f : ℚ)) * 100 * 10) := by
      rw [round_eq]
      apply Int.floor_nonneg.mpr
      linarith
    have hr1000 : round ((s : ℚ) / ((s : ℚ) + (f : ℚ)) * 100 * 10) ≤ 1000 := by
      rw [round_eq]
      have hfl := Int.floor_le ((s : ℚ) / ((s : ℚ) + (f : ℚ)) * 100 * 10 + 1 / 2)
      have hlt : ((⌊(s : ℚ) / ((s : ℚ) + (f : ℚ)) * 100 * 10 + 1 / 2⌋ : ℤ) : ℚ) <
          1001 := by linarith
      have hlt2 : (⌊(s : ℚ) / ((s : ℚ) + (f : ℚ)) * 100 * 10 + 1 / 2⌋ : ℤ) < 1001 := by
        exact_mod_cast hlt
      omega
    refine ⟨heq, ?_, ?_⟩
    · rw [heq]
      exact div_nonneg (by exact_mod_cast hr0) (by norm_num)
    · rw [heq]
      have hc : ((round (((s : ℚ) / ((s : ℚ) + (f : ℚ))) * 100 * 10) : ℤ) : ℚ) ≤
          1000 := by exact_mod_cast hr1000
      linarith

/-- Witness for C10: no feedback yields `0`; three successes and one failure
yield the rounded bounded percentage. -/
theorem c10_success_rate_safe_witness :
    get_success_rate 0 0 = 0 ∧
    (get_success_rate 3 1 =
        ((round (((3 : ℚ) / ((3 : ℚ) + (1 : ℚ))) * 100 * 10) : ℤ) : ℚ) / 10 ∧
      0 ≤ get_success_rate 3 1 ∧ get_success_rate 3 1 ≤ 100) := by
  constructor
  · exact (c10_success_rate_safe 0 0).1 rfl
  · exact_mod_cast (c10_success_rate_safe 3 1).2 (by decide)
